import Mathlib

/-!
Shallow embedding of the LinkFileFucker Telegram file-to-link bot.

The embedding covers the parts of the repository that the verified
properties are about:

* `src/storage.py` — `FileMetadata` and the `FileStorage` metadata store
  (a Python dict keyed by file key, modelled as a function
  `String → Option FileMetadata`; the JSON persistence layer `_save`/`_load`
  only mirrors the in-memory dict and is not modelled).
* `src/states.py` — `UserState` and the `StateManager` session store
  (a Python dict keyed by user id, modelled as `Nat → Option UserState`).
* `src/links.py` — the pure link formatter, with the URL templates of
  `src/config.py` inlined the way `str.format` substitutes them.
* `src/bot.py` — the three handlers the claims exercise
  (`file_upload_handler`, `password_choice_callback`,
  `password_input_handler`) and the shared `_deliver_links` procedure.
  Platform calls (message sending, forwarding to the archive channel,
  `client.get_me`) are externalized: outbound messages are collected in a
  `List OutMsg`, and externally produced values (the generated file key,
  the archive message id, the clock reading, the bot username) are
  parameters of the handlers.  `start_handler` and `default_handler` touch
  none of the claimed state beyond session get-or-create and are not
  modelled.
-/

namespace LinkBot

/-- File metadata record, from `src/storage.py` (`FileMetadata` dataclass).
`created_at` is filled by `__post_init__` from the clock; here the caller
passes the clock reading. -/
structure FileMetadata where
  file_key : String
  file_id : String
  file_name : String
  file_size : Nat
  user_id : Nat
  message_id_in_storage : Nat
  has_password : Bool
  password : Option String := none
  created_at : String
deriving DecidableEq, Repr

/-- The metadata store: the dict `FileStorage.data` of `src/storage.py`,
modelled as a function from file key to optional record. -/
abbrev FileStorage := String → Option FileMetadata

/-- `FileStorage.store_file` (src/storage.py): `self.data[key] = file_metadata`.
Inserts or overwrites, never fails. -/
def store_file (db : FileStorage) (file_metadata : FileMetadata) : FileStorage :=
  fun k => if k = file_metadata.file_key then some file_metadata else db k

/-- `FileStorage.get_file` (src/storage.py): `self.data.get(file_key)`. -/
def get_file (db : FileStorage) (file_key : String) : Option FileMetadata :=
  db file_key

/-- `FileStorage.update_password` (src/storage.py): when the key is present,
sets `password` and `has_password = True` and returns `True`; otherwise
returns `False` without touching the store. -/
def update_password (db : FileStorage) (file_key password : String) :
    Bool × FileStorage :=
  match db file_key with
  | some md =>
      (true, fun k => if k = file_key then
          some { md with password := some password, has_password := true }
        else db k)
  | none => (false, db)

/-- `FileStorage.delete_file` (src/storage.py): removes the entry when
present, returning whether it was present. -/
def delete_file (db : FileStorage) (file_key : String) : Bool × FileStorage :=
  match db file_key with
  | some _ => (true, fun k => if k = file_key then none else db k)
  | none => (false, db)

/-- The conversation session of a user, from `src/states.py` (`UserState`
dataclass).  The `context : Dict[str, Any]` field is never read or written
by any handler and is omitted. -/
structure UserState where
  user_id : Nat
  file_key : Option String := none
  file_id : Option String := none
  file_name : Option String := none
  file_size : Option Nat := none
  awaiting_password : Bool := false
  password_choice : Option String := none
deriving DecidableEq, Repr

/-- The session store: the dict `StateManager.states` of `src/states.py`. -/
abbrev Sessions := Nat → Option UserState

/-- `StateManager.get_state` (src/states.py): get-or-create.  Returns the
session together with the (possibly extended) store, since creation
mutates the dict. -/
def get_state (ss : Sessions) (user_id : Nat) : UserState × Sessions :=
  match ss user_id with
  | some st => (st, ss)
  | none =>
      let st : UserState := { user_id := user_id }
      (st, fun u => if u = user_id then some st else ss u)

/-- Writing a session back into the store: the effect of mutating the
shared `UserState` object held in `StateManager.states`. -/
def put_state (ss : Sessions) (user_id : Nat) (st : UserState) : Sessions :=
  fun u => if u = user_id then some st else ss u

/-- `StateManager.set_file_info` (src/states.py): overwrites the four
pending-file fields of the (possibly freshly created) session.  It does
not touch `awaiting_password` or `password_choice`. -/
def set_file_info (ss : Sessions) (user_id : Nat)
    (file_key file_id file_name : String) (file_size : Nat) : Sessions :=
  let p := get_state ss user_id
  put_state p.2 user_id
    { p.1 with file_key := some file_key, file_id := some file_id,
               file_name := some file_name, file_size := some file_size }

/-- `StateManager.set_awaiting_password` (src/states.py). -/
def set_awaiting_password (ss : Sessions) (user_id : Nat) (awaiting : Bool) :
    Sessions :=
  let p := get_state ss user_id
  put_state p.2 user_id { p.1 with awaiting_password := awaiting }

/-- `StateManager.set_password_choice` (src/states.py). -/
def set_password_choice (ss : Sessions) (user_id : Nat) (choice : String) :
    Sessions :=
  let p := get_state ss user_id
  put_state p.2 user_id { p.1 with password_choice := some choice }

/-- `StateManager.clear_state` (src/states.py): deletes the entry. -/
def clear_state (ss : Sessions) (user_id : Nat) : Sessions :=
  fun u => if u = user_id then none else ss u

/-- Python truthiness of an optional string (`if not state.file_key`,
`if stream_link:` …): `None` and the empty string are falsy. -/
def truthy : Option String → Bool
  | none => false
  | some s => s != ""

/-- `LinkGenerator.generate_stream_link` (src/links.py):
`STREAM_LINK_PATTERN.format(file_key=...)` with the template
`"https://stream.example.com/{file_key}"` of src/config.py. -/
def generate_stream_link (file_key : String) : String :=
  "https://stream.example.com/" ++ file_key

/-- `LinkGenerator.generate_download_link` (src/links.py), template
`"https://download.example.com/{file_key}"` of src/config.py. -/
def generate_download_link (file_key : String) : String :=
  "https://download.example.com/" ++ file_key

/-- `LinkGenerator.generate_tg_link` (src/links.py), template
`"https://t.me/{bot_username}/{message_id}"` of src/config.py;
`str.format` renders the integer message id in decimal. -/
def generate_tg_link (bot_username : String) (message_id : Nat) : String :=
  "https://t.me/" ++ bot_username ++ "/" ++ toString message_id

/-- `LinkGenerator.format_links_message` (src/links.py): builds the display
block by successive `+=`, appending each link line only when the link is
truthy (non-`None`, non-empty). -/
def format_links_message (file_name file_key : String) (has_password : Bool)
    (stream_link download_link tg_link : Option String) : String :=
  let message := "📁 **File Links for:** `" ++ file_name ++ "`\n\n"
  let message := message ++ ("🔑 **File Key:** `" ++ file_key ++ "`\n")
  let message := message ++ ("🔒 **Password Protected:** " ++
    (if has_password then "Yes" else "No") ++ "\n\n")
  let message := message ++ "**Available Links:**\n"
  let message := message ++
    (if truthy stream_link then
      "▶️ [Stream Link](" ++ stream_link.getD "" ++ ")\n" else "")
  let message := message ++
    (if truthy download_link then
      "⬇️ [Download Link](" ++ download_link.getD "" ++ ")\n" else "")
  message ++
    (if truthy tg_link then
      "📱 [Telegram Link](" ++ tg_link.getD "" ++ ")\n" else "")

/-- The whitespace set of Python `str.strip()` / `str.isspace()`
(CPython `Py_UNICODE_ISSPACE`): U+0009–U+000D, U+001C–U+001F, space,
U+0085 (NEL), U+00A0 (NBSP), U+1680, U+2000–U+200A, U+2028, U+2029,
U+202F, U+205F and U+3000. -/
def pyIsSpace (c : Char) : Bool :=
  (0x09 ≤ c.toNat && c.toNat ≤ 0x0d) ||
  (0x1c ≤ c.toNat && c.toNat ≤ 0x1f) ||
  c.toNat == 0x20 || c.toNat == 0x85 || c.toNat == 0xa0 ||
  c.toNat == 0x1680 ||
  (0x2000 ≤ c.toNat && c.toNat ≤ 0x200a) ||
  c.toNat == 0x2028 || c.toNat == 0x2029 || c.toNat == 0x202f ||
  c.toNat == 0x205f || c.toNat == 0x3000

/-- Python `str.strip()` on a character list: drop leading whitespace, then
drop trailing whitespace. -/
def pyStripList (s : List Char) : List Char :=
  ((s.dropWhile pyIsSpace).reverse.dropWhile pyIsSpace).reverse

/-- Python `str.strip()` (as used in `password_input_handler`). -/
def pyStrip (s : String) : String :=
  ⟨pyStripList s.data⟩

/-- Outbound actions emitted to the messaging platform. `reply` is
`message.reply_text`, `editText` is an `edit_text` on a previously sent
message, `answer`/`answerAlert` are `callback_query.answer` without/with
`show_alert=True` (the bare `answer()` carries empty text). -/
inductive OutMsg where
  | reply (text : String)
  | editText (text : String)
  | answer (text : String)
  | answerAlert (text : String)
deriving DecidableEq, Repr

/-- The global mutable state of the bot: the session dict and the metadata dict. -/
structure BotState where
  sessions : Sessions
  db : FileStorage

/-- Which media attachment the upload carries (`filters.document |
filters.video | filters.audio` in src/bot.py). -/
inductive FileKind where
  | document
  | video
  | audio
deriving DecidableEq, Repr

/-- An inbound file-upload message: the fields of the Pyrogram media object
that `file_upload_handler` reads. -/
structure UploadMsg where
  user_id : Nat
  kind : FileKind
  file_name : Option String
  file_id : String
  file_unique_id : String
  file_size : Nat
deriving DecidableEq, Repr

/-- Python `x or default` for an optional string: `None` and `""` both fall
back to the default. -/
def orDefault (o : Option String) (d : String) : String :=
  if truthy o then o.getD "" else d

/-- The display-name defaulting of `file_upload_handler` (src/bot.py
lines 94–108): `file_obj.file_name or <type-prefixed placeholder>`. -/
def uploadFileName (msg : UploadMsg) : String :=
  match msg.kind with
  | .document => orDefault msg.file_name "document"
  | .video => orDefault msg.file_name ("video_" ++ msg.file_unique_id.take 8)
  | .audio => orDefault msg.file_name ("audio_" ++ msg.file_unique_id.take 8)

/-- Fixed-point approximation of the Python format `f"{file_size/(1024*1024):.2f}"`
(two decimals, rounding half up; float rounding differences are immaterial
to every claim, which never inspects this text). -/
def mbString (bytes : Nat) : String :=
  let hundredths := (bytes * 100 + 524288) / 1048576
  toString (hundredths / 100) ++ "." ++
    (if hundredths % 100 < 10 then "0" else "") ++ toString (hundredths % 100)

/-- The `FileMetadata(...)` record built in `file_upload_handler`
(src/bot.py lines 129–137): `has_password=False`, no password, `created_at`
from the clock. -/
def uploadMetadata (msg : UploadMsg) (file_key : String)
    (stored_message_id : Nat) (now : String) : FileMetadata :=
  { file_key := file_key
    file_id := msg.file_id
    file_name := uploadFileName msg
    file_size := msg.file_size
    user_id := msg.user_id
    message_id_in_storage := stored_message_id
    has_password := false
    password := none
    created_at := now }

/-- `file_upload_handler` (src/bot.py): forward to the archive channel
(externalized: `stored_message_id` is the answer of the platform), generate a
key (externalized: `file_key`), store the metadata, set the file info of the
session, and prompt for the password choice. -/
def file_upload_handler (bs : BotState) (msg : UploadMsg)
    (file_key : String) (stored_message_id : Nat) (now : String) :
    BotState × List OutMsg :=
  let file_name := uploadFileName msg
  let metadata := uploadMetadata msg file_key stored_message_id now
  let db := store_file bs.db metadata
  let ss := set_file_info bs.sessions msg.user_id file_key msg.file_id
    file_name msg.file_size
  ({ sessions := ss, db := db },
   [OutMsg.reply "⏳ Processing your file...",
    OutMsg.editText ("📁 **File Received:** `" ++ file_name ++
      "`\n💾 **Size:** " ++ mbString msg.file_size ++
      " MB\n🔑 **Key:** `" ++ file_key ++
      "`\n\n🔐 Do you want to protect this file with a password?")])

/-- `_deliver_links` (src/bot.py): build the stream/download links from the
pending file key of the session, look the record up, report not-found (leaving the session)
when absent, otherwise format and send the links message and clear the
session.  `fromCallback` selects between the callback-query and plain
message reply paths; `bot_username` is `client.get_me()`; the `password`
argument is carried but, as in the source, never read. -/
def deliver_links (bs : BotState) (user_id : Nat) (state : UserState)
    (has_password : Bool) (password : Option String)
    (fromCallback : Bool) (bot_username : String) : BotState × List OutMsg :=
  let key := state.file_key.getD ""
  let stream_link := generate_stream_link key
  let download_link := generate_download_link key
  match get_file bs.db key with
  | none =>
      (bs, [if fromCallback then OutMsg.answerAlert "❌ File not found"
            else OutMsg.reply "❌ File not found"])
  | some metadata =>
      let tg_link := generate_tg_link bot_username metadata.message_id_in_storage
      let links_message := format_links_message (state.file_name.getD "None")
        key has_password (some stream_link) (some download_link) (some tg_link)
      let ss := clear_state bs.sessions user_id
      ({ bs with sessions := ss },
       if fromCallback then
         [OutMsg.editText links_message, OutMsg.answer "✅ Links generated!"]
       else [OutMsg.reply links_message])

/-- The two callback buttons, `pwd_yes` / `pwd_no`, as constrained by the
regex filter of the handler `^pwd_(yes|no)$`. -/
inductive Choice where
  | pwd_yes
  | pwd_no
deriving DecidableEq, Repr

/-- `password_choice_callback` (src/bot.py): reject the press when the
session has no (truthy) pending file key; on `pwd_no` deliver immediately;
on `pwd_yes` set `awaiting_password`, record the choice `"yes"` and prompt
for the password text. -/
def password_choice_callback (bs : BotState) (user_id : Nat) (choice : Choice)
    (bot_username : String) : BotState × List OutMsg :=
  let p := get_state bs.sessions user_id
  let state := p.1
  let bs := { bs with sessions := p.2 }
  if truthy state.file_key = false then
    (bs, [OutMsg.answerAlert "❌ No file in progress. Send a file first."])
  else
    match choice with
    | .pwd_no => deliver_links bs user_id state false none true bot_username
    | .pwd_yes =>
        let ss := set_awaiting_password bs.sessions user_id true
        let ss := set_password_choice ss user_id "yes"
        ({ bs with sessions := ss },
         [OutMsg.editText
            "🔐 Enter a password for your file:\n\nJust send the password as a message.",
          OutMsg.answer ""])

/-- `password_input_handler` (src/bot.py): ignore the text when the user is
not awaiting a password; strip it; re-prompt when the result is empty;
otherwise store it on the record (the boolean result of `update_password`
is discarded, as in the source) and deliver the links with
`has_password=True`. -/
def password_input_handler (bs : BotState) (user_id : Nat) (text : String)
    (bot_username : String) : BotState × List OutMsg :=
  let p := get_state bs.sessions user_id
  let state := p.1
  let bs := { bs with sessions := p.2 }
  if state.awaiting_password = false then
    (bs, [])
  else
    let password := pyStrip text
    if password = "" then
      (bs, [OutMsg.reply "❌ Password cannot be empty. Please try again:"])
    else
      let r := update_password bs.db (state.file_key.getD "") password
      let bs := { bs with db := r.2 }
      deliver_links bs user_id state true (some password) false bot_username

/-- Substring containment: the haystack splits as `pre ++ needle ++ post`. -/
def strContains (needle haystack : String) : Prop :=
  ∃ pre post, haystack = pre ++ (needle ++ post)

/-- Whether a string neither begins nor ends with a (Python) whitespace
character. -/
def noEdgeWhitespace (s : String) : Prop :=
  (∀ c, s.data.head? = some c → pyIsSpace c = false) ∧
  (∀ c, s.data.getLast? = some c → pyIsSpace c = false)

/-! Concrete fixtures used by the witness theorems. -/

/-- An empty metadata store. -/
def dbEmpty : FileStorage := fun _ => none

/-- An empty session store. -/
def ssEmpty : Sessions := fun _ => none

/-- A bot with no sessions and no stored files. -/
def botEmpty : BotState := { sessions := ssEmpty, db := dbEmpty }

/-- A sample stored file record. -/
def mdA : FileMetadata :=
  { file_key := "keyA", file_id := "fidA", file_name := "a.txt",
    file_size := 100, user_id := 1, message_id_in_storage := 7,
    has_password := false, password := none, created_at := "t0" }

/-- A sample document upload from user 1. -/
def msgDoc : UploadMsg :=
  { user_id := 1, kind := .document, file_name := some "report.pdf",
    file_id := "fid1", file_unique_id := "uniq1", file_size := 1048576 }

/-- A second sample upload (a video) from user 1. -/
def msgVid : UploadMsg :=
  { user_id := 1, kind := .video, file_name := some "clip.mp4",
    file_id := "fid2", file_unique_id := "uniq2", file_size := 2048 }

/-- A session mid-flow: user 1 is awaiting a password for an earlier file. -/
def stAwait : UserState :=
  { user_id := 1, file_key := some "oldkey", file_id := some "oldfid",
    file_name := some "old.bin", file_size := some 5,
    awaiting_password := true, password_choice := some "yes" }

/-- The stored record of the file `stAwait` is about. -/
def mdOld : FileMetadata :=
  { file_key := "oldkey", file_id := "oldfid", file_name := "old.bin",
    file_size := 5, user_id := 1, message_id_in_storage := 3,
    has_password := false, password := none, created_at := "t" }

/-- A bot whose only session is `stAwait`, with `mdOld` stored. -/
def botAwait : BotState :=
  { sessions := put_state ssEmpty 1 stAwait, db := store_file dbEmpty mdOld }

/-- A session of user 2 with pending file `keyA`. -/
def stPend : UserState :=
  { user_id := 2, file_key := some "keyA", file_id := some "fidA",
    file_name := some "a.txt", file_size := some 100,
    awaiting_password := false, password_choice := none }

/-- A bot where user 2 has pending file `keyA` and the record is stored. -/
def botPend : BotState :=
  { sessions := put_state ssEmpty 2 stPend, db := store_file dbEmpty mdA }

/-- A bot where the session of user 2 points at `keyA` but the record is gone. -/
def botOrphan : BotState :=
  { sessions := put_state ssEmpty 2 stPend, db := dbEmpty }

/-! Lemmas about Python `strip`. -/

theorem head?_dropWhile_false {p : Char → Bool} {l : List Char} {c : Char}
    (h : (l.dropWhile p).head? = some c) : p c = false := by
  have hm := List.head?_dropWhile_not p l
  rw [h] at hm
  exact hm

theorem pyStripList_getLast {l : List Char} {c : Char}
    (h : (pyStripList l).getLast? = some c) : pyIsSpace c = false := by
  unfold pyStripList at h
  rw [List.getLast?_reverse] at h
  exact head?_dropWhile_false h

theorem pyStripList_head {l : List Char} {c : Char}
    (h : (pyStripList l).head? = some c) : pyIsSpace c = false := by
  unfold pyStripList at h
  rw [List.head?_reverse] at h
  obtain ⟨t, ht⟩ :=
    List.dropWhile_suffix (l := (l.dropWhile pyIsSpace).reverse) pyIsSpace
  have hne : (l.dropWhile pyIsSpace).reverse.dropWhile pyIsSpace ≠ [] := by
    intro e
    rw [e] at h
    simp at h
  have hxy : (l.dropWhile pyIsSpace).reverse.getLast? = some c := by
    rw [← ht, List.getLast?_append_of_ne_nil t hne]
    exact h
  rw [List.getLast?_reverse] at hxy
  exact head?_dropWhile_false hxy

theorem pyStrip_noEdgeWhitespace (s : String) :
    noEdgeWhitespace (pyStrip s) := by
  constructor
  · intro c hc
    exact pyStripList_head hc
  · intro c hc
    exact pyStripList_getLast hc

theorem pyStrip_of_all_whitespace {s : String}
    (h : ∀ c ∈ s.data, pyIsSpace c) : pyStrip s = "" := by
  have h1 : s.data.dropWhile pyIsSpace = [] :=
    List.dropWhile_eq_nil_iff.mpr h
  show String.mk (pyStripList s.data) = ""
  rw [pyStripList, h1]
  rfl

/-! Reduction lemmas for the session store and the handlers. -/

theorem get_state_of_some {ss : Sessions} {uid : Nat} {st : UserState}
    (h : ss uid = some st) : get_state ss uid = (st, ss) := by
  simp [get_state, h]

theorem put_state_self (ss : Sessions) (uid : Nat) (st : UserState) :
    put_state ss uid st uid = some st := by
  simp [put_state]

theorem file_upload_sessions_self (bs : BotState) (msg : UploadMsg)
    (k : String) (mid : Nat) (now : String) :
    (file_upload_handler bs msg k mid now).1.sessions msg.user_id =
      some { (get_state bs.sessions msg.user_id).1 with
             file_key := some k, file_id := some msg.file_id,
             file_name := some (uploadFileName msg),
             file_size := some msg.file_size } := by
  simp [file_upload_handler, set_file_info, put_state]

theorem file_upload_db (bs : BotState) (msg : UploadMsg) (k : String)
    (mid : Nat) (now : String) :
    (file_upload_handler bs msg k mid now).1.db =
      store_file bs.db (uploadMetadata msg k mid now) := rfl

theorem file_upload_db_self (bs : BotState) (msg : UploadMsg) (k : String)
    (mid : Nat) (now : String) :
    (file_upload_handler bs msg k mid now).1.db k =
      some (uploadMetadata msg k mid now) := by
  rw [file_upload_db]
  simp [store_file, uploadMetadata]

theorem pwd_no_run {bs : BotState} {uid : Nat} {st : UserState} {k : String}
    {md : FileMetadata} (botu : String)
    (h1 : bs.sessions uid = some st) (h2 : st.file_key = some k)
    (hk : k ≠ "") (h3 : bs.db k = some md) :
    password_choice_callback bs uid Choice.pwd_no botu =
      ({ sessions := clear_state bs.sessions uid, db := bs.db },
       [OutMsg.editText
          (format_links_message (st.file_name.getD "None") k false
            (some (generate_stream_link k)) (some (generate_download_link k))
            (some (generate_tg_link botu md.message_id_in_storage))),
        OutMsg.answer "✅ Links generated!"]) := by
  simp [password_choice_callback, get_state_of_some h1, h2, truthy,
    bne_iff_ne, hk, deliver_links, get_file, h3]

theorem pwd_no_notfound {bs : BotState} {uid : Nat} {st : UserState}
    {k : String} (botu : String)
    (h1 : bs.sessions uid = some st) (h2 : st.file_key = some k)
    (hk : k ≠ "") (h3 : bs.db k = none) :
    password_choice_callback bs uid Choice.pwd_no botu =
      (bs, [OutMsg.answerAlert "❌ File not found"]) := by
  simp [password_choice_callback, get_state_of_some h1, h2, truthy,
    bne_iff_ne, hk, deliver_links, get_file, h3]

theorem pwd_yes_run {bs : BotState} {uid : Nat} {st : UserState}
    (botu : String) (h1 : bs.sessions uid = some st)
    (h2 : truthy st.file_key = true) :
    (password_choice_callback bs uid Choice.pwd_yes botu).1.db = bs.db ∧
    (password_choice_callback bs uid Choice.pwd_yes botu).1.sessions uid =
      some { st with awaiting_password := true,
                     password_choice := some "yes" } ∧
    (password_choice_callback bs uid Choice.pwd_yes botu).2 =
      [OutMsg.editText
         "🔐 Enter a password for your file:\n\nJust send the password as a message.",
       OutMsg.answer ""] := by
  refine ⟨?_, ?_, ?_⟩ <;>
  simp [password_choice_callback, get_state_of_some h1, h2,
    set_awaiting_password, set_password_choice,
    get_state_of_some (put_state_self bs.sessions uid
      { st with awaiting_password := true }), put_state]

theorem password_input_reject {bs : BotState} {uid : Nat} {st : UserState}
    (botu text : String) (h1 : bs.sessions uid = some st)
    (h2 : st.awaiting_password = true) (h3 : pyStrip text = "") :
    password_input_handler bs uid text botu =
      (bs, [OutMsg.reply "❌ Password cannot be empty. Please try again:"]) := by
  simp [password_input_handler, get_state_of_some h1, h2, h3]

theorem password_input_accept {bs : BotState} {uid : Nat} {st : UserState}
    {k : String} {md : FileMetadata} (botu text : String)
    (h1 : bs.sessions uid = some st) (h2 : st.awaiting_password = true)
    (h3 : pyStrip text ≠ "") (h4 : st.file_key = some k)
    (h5 : bs.db k = some md) :
    password_input_handler bs uid text botu =
      ({ sessions := clear_state bs.sessions uid,
         db := fun k' => if k' = k then
             some { md with password := some (pyStrip text),
                            has_password := true }
           else bs.db k' },
       [OutMsg.reply
          (format_links_message (st.file_name.getD "None") k true
            (some (generate_stream_link k)) (some (generate_download_link k))
            (some (generate_tg_link botu md.message_id_in_storage)))]) := by
  simp [password_input_handler, get_state_of_some h1, h2, h3, h4,
    update_password, h5, deliver_links, get_file]

/-! Generic helper lemmas about substring containment. -/

theorem strContains_mid (a n b : String) : strContains n (a ++ n ++ b) :=
  ⟨a, b, by rw [String.append_assoc]⟩

theorem strContains_self (n : String) : strContains n n :=
  ⟨"", "", by simp⟩

theorem strContains_append_right {n s : String} (x : String)
    (h : strContains n s) : strContains n (s ++ x) := by
  obtain ⟨p, q, rfl⟩ := h
  exact ⟨p, q ++ x, by simp [String.append_assoc]⟩

theorem strContains_append_left {n s : String} (x : String)
    (h : strContains n s) : strContains n (x ++ s) := by
  obtain ⟨p, q, rfl⟩ := h
  exact ⟨x ++ p, q, by simp [String.append_assoc]⟩

/-! Metadata store (claims C5, C6). -/

/-- C5: in the Metadata Store, `get_file` after `store_file r` at `r.file_key`
returns exactly `r`; and `get_file k` stays absent when `k` was absent
initially and none of the inserted records carries key `k`. -/
theorem get_after_put_and_absent_key :
    (∀ (db : FileStorage) (r : FileMetadata),
      get_file (store_file db r) r.file_key = some r) ∧
    (∀ (db : FileStorage) (k : String) (rs : List FileMetadata),
      get_file db k = none → (∀ r ∈ rs, r.file_key ≠ k) →
      get_file (rs.foldl store_file db) k = none) := by
  constructor
  · intro db r
    simp [get_file, store_file]
  · intro db k rs
    induction rs generalizing db with
    | nil => intro h _; exact h
    | cons r rs ih =>
        intro h hr
        simp only [List.foldl_cons]
        apply ih
        · have hne : k ≠ r.file_key :=
            fun e => hr r (List.mem_cons_self r rs) e.symm
          simpa [get_file, store_file, hne] using h
        · intro r' hr'
          exact hr r' (List.mem_cons_of_mem _ hr')

/-- Witness for C5 at a concrete store and record. -/
theorem get_after_put_and_absent_key_witness :
    get_file (store_file dbEmpty mdA) mdA.file_key = some mdA ∧
    get_file (([mdA] : List FileMetadata).foldl store_file dbEmpty) "other"
      = none :=
  ⟨get_after_put_and_absent_key.1 dbEmpty mdA,
   get_after_put_and_absent_key.2 dbEmpty "other" [mdA] rfl (by decide)⟩

/-- C6: `update_password` on an absent key returns `false` and the very same
store; on a present key it returns `true`, the updated record has
`has_password = true`, the given password, and all other fields unchanged,
and every other key still maps to its old record. -/
theorem update_password_contract :
    ∀ (db : FileStorage) (k p : String),
      (db k = none → update_password db k p = (false, db)) ∧
      (∀ md, db k = some md →
        (update_password db k p).1 = true ∧
        (update_password db k p).2 k =
          some { md with password := some p, has_password := true } ∧
        ∀ k', k' ≠ k → (update_password db k p).2 k' = db k') := by
  intro db k p
  constructor
  · intro h
    simp [update_password, h]
  · intro md h
    refine ⟨by simp [update_password, h], by simp [update_password, h], ?_⟩
    intro k' hk'
    simp [update_password, h, hk']

/-- Witness for C6 at a concrete store. -/
theorem update_password_contract_witness :
    update_password dbEmpty "nokey" "p" = (false, dbEmpty) ∧
    (update_password (store_file dbEmpty mdA) "keyA" "p").1 = true ∧
    (update_password (store_file dbEmpty mdA) "keyA" "p").2 "keyA" =
      some { mdA with password := some "p", has_password := true } ∧
    (update_password (store_file dbEmpty mdA) "keyA" "p").2 "zz" =
      store_file dbEmpty mdA "zz" :=
  ⟨(update_password_contract dbEmpty "nokey" "p").1 rfl,
   ((update_password_contract (store_file dbEmpty mdA) "keyA" "p").2 mdA
      rfl).1,
   ((update_password_contract (store_file dbEmpty mdA) "keyA" "p").2 mdA
      rfl).2.1,
   ((update_password_contract (store_file dbEmpty mdA) "keyA" "p").2 mdA
      rfl).2.2 "zz" (by decide)⟩

/-! Link formatter (claim C9). -/

/-- The display block when all three links are supplied (and non-empty, as
the truthiness test of the source requires). -/
theorem format_links_message_all (n k : String) (hp : Bool) (s d t : String)
    (hs : s ≠ "") (hd : d ≠ "") (ht : t ≠ "") :
    format_links_message n k hp (some s) (some d) (some t) =
      ("📁 **File Links for:** `" ++ n ++ "`\n\n") ++
      ("🔑 **File Key:** `" ++ k ++ "`\n") ++
      ("🔒 **Password Protected:** " ++ (if hp then "Yes" else "No") ++
        "\n\n") ++
      "**Available Links:**\n" ++
      ("▶️ [Stream Link](" ++ s ++ ")\n") ++
      ("⬇️ [Download Link](" ++ d ++ ")\n") ++
      ("📱 [Telegram Link](" ++ t ++ ")\n") := by
  simp [format_links_message, truthy, bne_iff_ne, hs, hd, ht,
    String.append_assoc]

/-- The key always sits in the display block, between the fixed markers of
the File Key line (no truthiness assumptions needed). -/
theorem format_links_message_contains_key (n k : String) (hp : Bool)
    (s d t : Option String) :
    strContains k (format_links_message n k hp s d t) := by
  simp only [format_links_message]
  apply strContains_append_right
  apply strContains_append_right
  apply strContains_append_right
  apply strContains_append_right
  apply strContains_append_right
  apply strContains_append_left
  exact strContains_mid _ _ _

/-- The file name always sits in the display block. -/
theorem format_links_message_contains_name (n k : String) (hp : Bool)
    (s d t : Option String) :
    strContains n (format_links_message n k hp s d t) := by
  simp only [format_links_message]
  apply strContains_append_right
  apply strContains_append_right
  apply strContains_append_right
  apply strContains_append_right
  apply strContains_append_right
  apply strContains_append_right
  exact strContains_mid _ _ _

/-- C9: the Link Formatter is pure string substitution: the stream and
download links are the fixed templates with the key appended, the
platform-native link is the fixed template with bot identity and archive
message id substituted, and the display block contains the file name, the
key, the password-status line matching the flag, and all three links when
all three are supplied (non-empty). -/
theorem link_formatter_pure :
    (∀ k, generate_stream_link k = "https://stream.example.com/" ++ k) ∧
    (∀ k, generate_download_link k = "https://download.example.com/" ++ k) ∧
    (∀ b m, generate_tg_link b m =
      "https://t.me/" ++ b ++ "/" ++ toString m) ∧
    (∀ (n k : String) (hp : Bool) (s d t : String),
      s ≠ "" → d ≠ "" → t ≠ "" →
      strContains n (format_links_message n k hp (some s) (some d) (some t)) ∧
      strContains k (format_links_message n k hp (some s) (some d) (some t)) ∧
      strContains ("🔒 **Password Protected:** " ++
          (if hp then "Yes" else "No"))
        (format_links_message n k hp (some s) (some d) (some t)) ∧
      strContains s (format_links_message n k hp (some s) (some d) (some t)) ∧
      strContains d (format_links_message n k hp (some s) (some d) (some t)) ∧
      strContains t (format_links_message n k hp (some s) (some d) (some t))) := by
  refine ⟨fun _ => rfl, fun _ => rfl, fun _ _ => rfl, ?_⟩
  intro n k hp s d t hs hd ht
  rw [format_links_message_all n k hp s d t hs hd ht]
  refine ⟨?_, ?_, ?_, ?_, ?_, ?_⟩
  · apply strContains_append_right
    apply strContains_append_right
    apply strContains_append_right
    apply strContains_append_right
    apply strContains_append_right
    apply strContains_append_right
    exact strContains_mid _ _ _
  · apply strContains_append_right
    apply strContains_append_right
    apply strContains_append_right
    apply strContains_append_right
    apply strContains_append_right
    apply strContains_append_left
    exact strContains_mid _ _ _
  · apply strContains_append_right
    apply strContains_append_right
    apply strContains_append_right
    apply strContains_append_right
    apply strContains_append_left
    apply strContains_append_right
    exact strContains_self _
  · apply strContains_append_right
    apply strContains_append_right
    apply strContains_append_left
    exact strContains_mid _ _ _
  · apply strContains_append_right
    apply strContains_append_left
    exact strContains_mid _ _ _
  · apply strContains_append_left
    exact strContains_mid _ _ _

/-! Conversation state machine (claims C1–C4, C7, C8, C10). -/

/-- C1: after any upload that issued key `k` (keys from the generator are
non-empty), pressing the no-password button delivers exactly the links
message formatted from the name, key and archive message id of that upload —
a message that contains `k` — and the session is deleted, so a subsequent
get creates a fresh empty session. -/
theorem no_password_choice_delivers_issued_key (bs : BotState)
    (msg : UploadMsg) (k : String) (mid : Nat) (now botu : String)
    (hk : k ≠ "") :
    (password_choice_callback (file_upload_handler bs msg k mid now).1
        msg.user_id Choice.pwd_no botu).2 =
      [OutMsg.editText (format_links_message (uploadFileName msg) k false
          (some (generate_stream_link k)) (some (generate_download_link k))
          (some (generate_tg_link botu mid))),
       OutMsg.answer "✅ Links generated!"] ∧
    strContains k (format_links_message (uploadFileName msg) k false
        (some (generate_stream_link k)) (some (generate_download_link k))
        (some (generate_tg_link botu mid))) ∧
    (password_choice_callback (file_upload_handler bs msg k mid now).1
        msg.user_id Choice.pwd_no botu).1.sessions msg.user_id = none ∧
    (get_state (password_choice_callback
        (file_upload_handler bs msg k mid now).1
        msg.user_id Choice.pwd_no botu).1.sessions msg.user_id).1 =
      { user_id := msg.user_id } := by
  have hs := file_upload_sessions_self bs msg k mid now
  have hdb := file_upload_db_self bs msg k mid now
  have hrun := pwd_no_run botu hs (by simp) hk hdb
  rw [hrun]
  refine ⟨by simp [uploadMetadata], ?_, ?_, ?_⟩
  · exact format_links_message_contains_key _ _ _ _ _ _
  · simp [clear_state]
  · simp [get_state, clear_state]

/-- Witness for C1 at a concrete upload. -/
theorem no_password_choice_delivers_issued_key_witness :
    "abc123" ≠ "" ∧
    ((password_choice_callback
        (file_upload_handler botEmpty msgDoc "abc123" 42 "t0").1
        msgDoc.user_id Choice.pwd_no "mybot").2 =
      [OutMsg.editText (format_links_message (uploadFileName msgDoc) "abc123"
          false (some (generate_stream_link "abc123"))
          (some (generate_download_link "abc123"))
          (some (generate_tg_link "mybot" 42))),
       OutMsg.answer "✅ Links generated!"] ∧
    strContains "abc123" (format_links_message (uploadFileName msgDoc)
        "abc123" false (some (generate_stream_link "abc123"))
        (some (generate_download_link "abc123"))
        (some (generate_tg_link "mybot" 42))) ∧
    (password_choice_callback
        (file_upload_handler botEmpty msgDoc "abc123" 42 "t0").1
        msgDoc.user_id Choice.pwd_no "mybot").1.sessions msgDoc.user_id =
      none ∧
    (get_state (password_choice_callback
        (file_upload_handler botEmpty msgDoc "abc123" 42 "t0").1
        msgDoc.user_id Choice.pwd_no "mybot").1.sessions msgDoc.user_id).1 =
      { user_id := msgDoc.user_id }) :=
  ⟨by decide,
   no_password_choice_delivers_issued_key botEmpty msgDoc "abc123" 42 "t0"
     "mybot" (by decide)⟩

/-- C2: the sequence upload, set-password press, empty text, text "secret"
stores `has_password = true` and password `"secret"` on the uploaded
record and clears the session; the empty text is answered only with the
re-prompt and leaves the whole bot state (sessions and store) unchanged. -/
theorem set_password_flow (bs : BotState) (msg : UploadMsg) (k : String)
    (mid : Nat) (now botu : String) (hk : k ≠ "")
    (bs₂ : BotState) (r₃ r₄ : BotState × List OutMsg)
    (hbs₂ : bs₂ = (password_choice_callback
      (file_upload_handler bs msg k mid now).1 msg.user_id Choice.pwd_yes
      botu).1)
    (hr₃ : r₃ = password_input_handler bs₂ msg.user_id "" botu)
    (hr₄ : r₄ = password_input_handler r₃.1 msg.user_id "secret" botu) :
    r₃ = (bs₂,
      [OutMsg.reply "❌ Password cannot be empty. Please try again:"]) ∧
    r₄.1.db k = some { uploadMetadata msg k mid now with
                       password := some "secret", has_password := true } ∧
    r₄.1.sessions msg.user_id = none := by
  subst hbs₂ hr₃ hr₄
  have hs₁ := file_upload_sessions_self bs msg k mid now
  have hYes := pwd_yes_run botu hs₁ (by simp [truthy, bne_iff_ne, hk])
  have hreject := password_input_reject botu "" hYes.2.1 rfl rfl
  have hdb₂ : (password_choice_callback
      (file_upload_handler bs msg k mid now).1 msg.user_id Choice.pwd_yes
      botu).1.db k = some (uploadMetadata msg k mid now) := by
    rw [hYes.1]
    exact file_upload_db_self bs msg k mid now
  have haccept := password_input_accept botu "secret" hYes.2.1 rfl
    (by decide) rfl hdb₂
  have hsecret : pyStrip "secret" = "secret" := by decide
  refine ⟨hreject, ?_, ?_⟩
  · rw [hreject]
    dsimp only
    rw [haccept]
    dsimp only
    rw [if_pos rfl, hsecret]
  · rw [hreject]
    dsimp only
    rw [haccept]
    dsimp only
    simp [clear_state]

/-- Witness for C2 at a concrete upload. -/
theorem set_password_flow_witness :
    "abc123" ≠ "" ∧
    (let bs₁ := (file_upload_handler botEmpty msgDoc "abc123" 42 "t0").1
    let bs₂ := (password_choice_callback bs₁ msgDoc.user_id Choice.pwd_yes
      "mybot").1
    let r₃ := password_input_handler bs₂ msgDoc.user_id "" "mybot"
    let r₄ := password_input_handler r₃.1 msgDoc.user_id "secret" "mybot"
    r₃ = (bs₂,
      [OutMsg.reply "❌ Password cannot be empty. Please try again:"]) ∧
    r₄.1.db "abc123" = some { uploadMetadata msgDoc "abc123" 42 "t0" with
                              password := some "secret",
                              has_password := true } ∧
    r₄.1.sessions msgDoc.user_id = none) :=
  ⟨by decide,
   set_password_flow botEmpty msgDoc "abc123" 42 "t0" "mybot" (by decide)
     _ _ _ rfl rfl rfl⟩

/-- C3 counterexample: user 1 is awaiting a password (`awaiting_password =
true`, `password_choice = "yes"`); a fresh upload leaves both flags as they
were, contradicting the claimed reset to `false`/absent. -/
theorem upload_reset_counterexample :
    ¬ ((get_state (file_upload_handler botAwait msgDoc "newkey" 9
          "t1").1.sessions 1).1.awaiting_password = false ∧
       (get_state (file_upload_handler botAwait msgDoc "newkey" 9
          "t1").1.sessions 1).1.password_choice = none) := by
  decide

/-- C3 amended: a new upload in any state overwrites exactly the four
pending-file fields of the session; `awaiting_password` and
`password_choice` are left at their previous values (they are not reset). -/
theorem upload_overwrites_only_file_fields (bs : BotState) (msg : UploadMsg)
    (k : String) (mid : Nat) (now : String) :
    (get_state (file_upload_handler bs msg k mid now).1.sessions
        msg.user_id).1 =
      { (get_state bs.sessions msg.user_id).1 with
        file_key := some k, file_id := some msg.file_id,
        file_name := some (uploadFileName msg),
        file_size := some msg.file_size } := by
  rw [get_state_of_some (file_upload_sessions_self bs msg k mid now)]

/-- C4: after upload A then upload B by the same user, the four
pending-file fields of the session are exactly those of upload B; the
subsequent no-password press delivers precisely the message formatted
from the name, key and archive message id of upload B (a function of the
data of upload B alone), which contains the key of B; and when the two
keys differ the session does not hold the key of A. -/
theorem last_upload_wins (bs : BotState) (msgA msgB : UploadMsg)
    (kA kB : String) (midA midB : Nat) (nowA nowB botu : String)
    (huid : msgA.user_id = msgB.user_id) (hkB : kB ≠ "") :
    (get_state (file_upload_handler (file_upload_handler bs msgA kA midA
        nowA).1 msgB kB midB nowB).1.sessions msgB.user_id).1.file_key =
      some kB ∧
    (get_state (file_upload_handler (file_upload_handler bs msgA kA midA
        nowA).1 msgB kB midB nowB).1.sessions msgB.user_id).1.file_id =
      some msgB.file_id ∧
    (get_state (file_upload_handler (file_upload_handler bs msgA kA midA
        nowA).1 msgB kB midB nowB).1.sessions msgB.user_id).1.file_name =
      some (uploadFileName msgB) ∧
    (get_state (file_upload_handler (file_upload_handler bs msgA kA midA
        nowA).1 msgB kB midB nowB).1.sessions msgB.user_id).1.file_size =
      some msgB.file_size ∧
    (kA ≠ kB →
      (get_state (file_upload_handler (file_upload_handler bs msgA kA midA
          nowA).1 msgB kB midB nowB).1.sessions msgB.user_id).1.file_key ≠
        some kA) ∧
    (password_choice_callback (file_upload_handler (file_upload_handler bs
        msgA kA midA nowA).1 msgB kB midB nowB).1 msgB.user_id
        Choice.pwd_no botu).2 =
      [OutMsg.editText (format_links_message (uploadFileName msgB) kB false
          (some (generate_stream_link kB)) (some (generate_download_link kB))
          (some (generate_tg_link botu midB))),
       OutMsg.answer "✅ Links generated!"] ∧
    strContains kB (format_links_message (uploadFileName msgB) kB false
        (some (generate_stream_link kB)) (some (generate_download_link kB))
        (some (generate_tg_link botu midB))) := by
  have hsB := file_upload_sessions_self
    (file_upload_handler bs msgA kA midA nowA).1 msgB kB midB nowB
  have hdbB := file_upload_db_self
    (file_upload_handler bs msgA kA midA nowA).1 msgB kB midB nowB
  have hrun := pwd_no_run botu hsB (by simp) hkB hdbB
  rw [get_state_of_some hsB, hrun]
  refine ⟨rfl, rfl, rfl, rfl, ?_, by simp [uploadMetadata], ?_⟩
  · intro hne he
    exact hne (Option.some.inj he).symm
  · exact format_links_message_contains_key _ _ _ _ _ _

/-- Witness for C4 at two concrete uploads. -/
theorem last_upload_wins_witness :
    msgDoc.user_id = msgVid.user_id ∧ "kB" ≠ "" ∧
    ((get_state (file_upload_handler (file_upload_handler botEmpty msgDoc
        "kA" 1 "t1").1 msgVid "kB" 2 "t2").1.sessions
        msgVid.user_id).1.file_key = some "kB" ∧
     (get_state (file_upload_handler (file_upload_handler botEmpty msgDoc
        "kA" 1 "t1").1 msgVid "kB" 2 "t2").1.sessions
        msgVid.user_id).1.file_id = some msgVid.file_id ∧
     (get_state (file_upload_handler (file_upload_handler botEmpty msgDoc
        "kA" 1 "t1").1 msgVid "kB" 2 "t2").1.sessions
        msgVid.user_id).1.file_name = some (uploadFileName msgVid) ∧
     (get_state (file_upload_handler (file_upload_handler botEmpty msgDoc
        "kA" 1 "t1").1 msgVid "kB" 2 "t2").1.sessions
        msgVid.user_id).1.file_size = some msgVid.file_size ∧
     ("kA" ≠ "kB" →
       (get_state (file_upload_handler (file_upload_handler botEmpty msgDoc
          "kA" 1 "t1").1 msgVid "kB" 2 "t2").1.sessions
          msgVid.user_id).1.file_key ≠ some "kA") ∧
     (password_choice_callback (file_upload_handler (file_upload_handler
        botEmpty msgDoc "kA" 1 "t1").1 msgVid "kB" 2 "t2").1 msgVid.user_id
        Choice.pwd_no "mybot").2 =
      [OutMsg.editText (format_links_message (uploadFileName msgVid) "kB"
          false (some (generate_stream_link "kB"))
          (some (generate_download_link "kB"))
          (some (generate_tg_link "mybot" 2))),
       OutMsg.answer "✅ Links generated!"] ∧
     strContains "kB" (format_links_message (uploadFileName msgVid) "kB"
        false (some (generate_stream_link "kB"))
        (some (generate_download_link "kB"))
        (some (generate_tg_link "mybot" 2)))) :=
  ⟨rfl, by decide,
   last_upload_wins botEmpty msgDoc msgVid "kA" "kB" 1 2 "t1" "t2" "mybot"
     rfl (by decide)⟩

/-- C7: when the pending file key of the session is absent from the store, the
no-password delivery answers with the not-found alert and returns the bot
state completely unchanged: re-querying the session still yields the same
session with the same pending file key. -/
theorem delivery_not_found_keeps_session (bs : BotState) (uid : Nat)
    (st : UserState) (k botu : String)
    (h1 : bs.sessions uid = some st) (h2 : st.file_key = some k)
    (hk : k ≠ "") (h3 : bs.db k = none) :
    password_choice_callback bs uid Choice.pwd_no botu =
      (bs, [OutMsg.answerAlert "❌ File not found"]) ∧
    (get_state (password_choice_callback bs uid Choice.pwd_no
        botu).1.sessions uid).1 = st ∧
    (get_state (password_choice_callback bs uid Choice.pwd_no
        botu).1.sessions uid).1.file_key = some k := by
  have h := pwd_no_notfound botu h1 h2 hk h3
  rw [h]
  exact ⟨rfl, by rw [get_state_of_some h1],
    by rw [get_state_of_some h1]; exact h2⟩

/-- Witness for C7 at a concrete orphaned session. -/
theorem delivery_not_found_keeps_session_witness :
    botOrphan.sessions 2 = some stPend ∧ stPend.file_key = some "keyA" ∧
    botOrphan.db "keyA" = none ∧
    (password_choice_callback botOrphan 2 Choice.pwd_no "mybot" =
      (botOrphan, [OutMsg.answerAlert "❌ File not found"]) ∧
    (get_state (password_choice_callback botOrphan 2 Choice.pwd_no
        "mybot").1.sessions 2).1 = stPend ∧
    (get_state (password_choice_callback botOrphan 2 Choice.pwd_no
        "mybot").1.sessions 2).1.file_key = some "keyA") :=
  ⟨rfl, rfl, rfl,
   delivery_not_found_keeps_session botOrphan 2 stPend "keyA" "mybot" rfl
     rfl (by decide) rfl⟩

/-- C8 counterexample: user 2 has pending file `keyA` with its record
stored; pressing no-password clears the session, so the re-created session
holds no `password_choice` — in particular it is not `"no"` as claimed. -/
theorem password_choice_no_counterexample :
    ¬ ((get_state (password_choice_callback botPend 2 Choice.pwd_no
          "mybot").1.sessions 2).1.password_choice = some "no") := by
  decide

/-- C8 amended: with a pending file, the set-password press records the
choice `"yes"` in the session; the no-password press records no choice at
all — it either clears the session (successful delivery) or leaves it
exactly as it was (record not found). -/
theorem password_choice_recording (bs : BotState) (uid : Nat)
    (st : UserState) (k botu : String)
    (h1 : bs.sessions uid = some st) (h2 : st.file_key = some k)
    (hk : k ≠ "") :
    (get_state (password_choice_callback bs uid Choice.pwd_yes
        botu).1.sessions uid).1.password_choice = some "yes" ∧
    ((password_choice_callback bs uid Choice.pwd_no botu).1.sessions uid =
        none ∨
     (password_choice_callback bs uid Choice.pwd_no botu).1.sessions uid =
        some st) := by
  constructor
  · have hYes := pwd_yes_run botu h1 (by simp [h2, truthy, bne_iff_ne, hk])
    rw [get_state_of_some hYes.2.1]
  · rcases hdb : bs.db k with _ | md
    · rw [pwd_no_notfound botu h1 h2 hk hdb]
      exact Or.inr h1
    · rw [pwd_no_run botu h1 h2 hk hdb]
      exact Or.inl (by simp [clear_state])

/-- Witness for C8 (amended) at a concrete pending session. -/
theorem password_choice_recording_witness :
    botPend.sessions 2 = some stPend ∧ stPend.file_key = some "keyA" ∧
    ((get_state (password_choice_callback botPend 2 Choice.pwd_yes
        "mybot").1.sessions 2).1.password_choice = some "yes" ∧
    ((password_choice_callback botPend 2 Choice.pwd_no "mybot").1.sessions 2
        = none ∨
     (password_choice_callback botPend 2 Choice.pwd_no "mybot").1.sessions 2
        = some stPend)) :=
  ⟨rfl, rfl,
   password_choice_recording botPend 2 stPend "keyA" "mybot" rfl rfl
     (by decide)⟩

/-- C10: an accepted password is stored exactly as the stripped message
text — which never begins or ends with whitespace — and a message whose
characters are all whitespace is rejected with the re-prompt, leaving the
bot state unchanged. -/
theorem stored_password_stripped (bs : BotState) (uid : Nat)
    (st : UserState) (k : String) (md : FileMetadata) (text botu : String)
    (h1 : bs.sessions uid = some st) (h2 : st.awaiting_password = true)
    (h4 : st.file_key = some k) (h5 : bs.db k = some md) :
    (pyStrip text ≠ "" →
      (password_input_handler bs uid text botu).1.db k =
        some { md with password := some (pyStrip text),
                       has_password := true } ∧
      noEdgeWhitespace (pyStrip text)) ∧
    ((∀ c ∈ text.data, pyIsSpace c) →
      password_input_handler bs uid text botu =
        (bs, [OutMsg.reply "❌ Password cannot be empty. Please try again:"])) := by
  constructor
  · intro h3
    have hacc := password_input_accept botu text h1 h2 h3 h4 h5
    exact ⟨by rw [hacc]; simp, pyStrip_noEdgeWhitespace text⟩
  · intro hws
    exact password_input_reject botu text h1 h2
      (pyStrip_of_all_whitespace hws)

/-- Witness for C10 at a concrete awaiting-password session: the password
"  hunter2  " is stored stripped, and "   " is rejected. -/
theorem stored_password_stripped_witness :
    botAwait.sessions 1 = some stAwait ∧
    stAwait.awaiting_password = true ∧
    pyStrip "  hunter2  " ≠ "" ∧
    ((password_input_handler botAwait 1 "  hunter2  " "mybot").1.db "oldkey"
       = some { mdOld with password := some (pyStrip "  hunter2  "),
                           has_password := true } ∧
     noEdgeWhitespace (pyStrip "  hunter2  ")) ∧
    password_input_handler botAwait 1 "   " "mybot" =
      (botAwait,
       [OutMsg.reply "❌ Password cannot be empty. Please try again:"]) :=
  ⟨rfl, rfl, by decide,
   (stored_password_stripped botAwait 1 stAwait "oldkey" mdOld
      "  hunter2  " "mybot" rfl rfl rfl rfl).1 (by decide),
   (stored_password_stripped botAwait 1 stAwait "oldkey" mdOld
      "   " "mybot" rfl rfl rfl rfl).2 (by decide)⟩

/-- Witness for C9 at concrete strings. -/
theorem link_formatter_pure_witness :
    generate_stream_link "abc123" = "https://stream.example.com/" ++ "abc123" ∧
    generate_tg_link "mybot" 42 = "https://t.me/" ++ "mybot" ++ "/" ++
      toString 42 ∧
    strContains "T1"
      (format_links_message "test.pdf" "abc123" true
        (some "S1") (some "D1") (some "T1")) :=
  ⟨link_formatter_pure.1 "abc123",
   link_formatter_pure.2.2.1 "mybot" 42,
   (link_formatter_pure.2.2.2 "test.pdf" "abc123" true "S1" "D1" "T1"
      (by decide) (by decide) (by decide)).2.2.2.2.2⟩

end LinkBot
